import Mathlib

/-!
Verification of the AutoDD financial-health calculation core (`src/app.py`).

The calculation core is embedded shallowly over the rationals `ℚ`:
Python floats become exact rationals, Python `None` becomes `Option.none`,
and Python truthiness tests (`if receita`, `if ativo_circ and passivo_circ`)
become `≠ 0` tests, which is their meaning on non-negative finite numbers.
-/

namespace AutoDD

/-- The ten raw numeric inputs collected by the form (`src/app.py` lines 29–42),
in form order.  All are constrained non-negative by the form widget. -/
structure RawFinancials where
  receita : ℚ
  lucroBruto : ℚ
  ebitda : ℚ
  lucroLiquido : ℚ
  ativoTotal : ℚ
  passivoTotal : ℚ
  patrimonioLiquido : ℚ
  dividaLiquida : ℚ
  ativoCirc : ℚ
  passivoCirc : ℚ
deriving DecidableEq

/-- The 7-entry KPI dictionary (`src/app.py` lines 50–57), in insertion order.
An entry is `none` exactly when the Python code stores `None`. -/
structure KpiMap where
  margemBruta : Option ℚ
  margemEbitda : Option ℚ
  margemLiquida : Option ℚ
  roe : Option ℚ
  roa : Option ℚ
  dividaPL : Option ℚ
  liquidezCorrente : Option ℚ
deriving DecidableEq

/-- KPI derivation (`src/app.py` lines 50–57).  Each conditional expression
`x / d if d else None` is embedded as a test `d ≠ 0`; the liquidity ratio
requires both `ativo_circ` and `passivo_circ` to be truthy. -/
def kpis (r : RawFinancials) : KpiMap :=
  ⟨ if r.receita ≠ 0 then some (r.lucroBruto / r.receita) else none,
    if r.receita ≠ 0 then some (r.ebitda / r.receita) else none,
    if r.receita ≠ 0 then some (r.lucroLiquido / r.receita) else none,
    if r.patrimonioLiquido ≠ 0 then some (r.lucroLiquido / r.patrimonioLiquido) else none,
    if r.ativoTotal ≠ 0 then some (r.lucroLiquido / r.ativoTotal) else none,
    if r.patrimonioLiquido ≠ 0 then some (r.dividaLiquida / r.patrimonioLiquido) else none,
    if r.ativoCirc ≠ 0 ∧ r.passivoCirc ≠ 0 then some (r.ativoCirc / r.passivoCirc) else none ⟩

/-- Names of the seven KPIs, used as dictionary keys in the source. -/
inductive Kpi where
  | margemBruta
  | margemEbitda
  | margemLiquida
  | roe
  | roa
  | dividaPL
  | liquidezCorrente
deriving DecidableEq

/-- The dictionary key string of each KPI (`src/app.py` lines 51–57). -/
def kpiName : Kpi → String
  | .margemBruta => "Margem Bruta"
  | .margemEbitda => "Margem EBITDA"
  | .margemLiquida => "Margem Líquida"
  | .roe => "ROE"
  | .roa => "ROA"
  | .dividaPL => "Dívida/PL"
  | .liquidezCorrente => "Liquidez Corrente"

/-- The fixed benchmark table (`src/app.py` lines 60–68). -/
def benchmark : Kpi → ℚ
  | .margemBruta => 0.40
  | .margemEbitda => 0.20
  | .margemLiquida => 0.10
  | .roe => 0.15
  | .roa => 0.07
  | .dividaPL => 1.0
  | .liquidezCorrente => 1.5

/-- Look a KPI's value up in the KPI mapping. -/
def KpiMap.get (m : KpiMap) : Kpi → Option ℚ
  | .margemBruta => m.margemBruta
  | .margemEbitda => m.margemEbitda
  | .margemLiquida => m.margemLiquida
  | .roe => m.roe
  | .roa => m.roa
  | .dividaPL => m.dividaPL
  | .liquidezCorrente => m.liquidezCorrente

/-- Percentage deviation column `Desvio (%)` (`src/app.py` line 73):
`(value - benchmark) / benchmark * 100`, `NaN`/undefined when the value is. -/
def deviation (m : KpiMap) (k : Kpi) : Option ℚ :=
  (m.get k).map (fun v => (v - benchmark k) / benchmark k * 100)

/-- `normalize` (`src/app.py` lines 109–112): `0` for `None`, else
`min(v/ideal, 1.0)` when `ideal != 0`, else `0`.  The `max_val` argument
appears in the Python signature but not in the body. -/
def normalize (v : Option ℚ) (ideal maxVal : ℚ) : ℚ :=
  match v with
  | none => 0
  | some x => if ideal ≠ 0 then min (x / ideal) 1 else 0

/-- The health score (`src/app.py` lines 114–120). -/
def score (m : KpiMap) : ℚ :=
  (0.25 * normalize m.margemEbitda 0.2 0.4 +
   0.2 * normalize m.margemLiquida 0.1 0.2 +
   0.25 * normalize m.roe 0.15 0.3 +
   0.2 * (1 - normalize m.dividaPL 1 3) +
   0.1 * normalize m.liquidezCorrente 1.5 3) * 100

/-- Diagnosis and recommendation texts (`src/app.py` lines 135–146),
first match wins descending. -/
def diagnosis (s : ℚ) : String × String :=
  if s ≥ 80 then
    ("Excelente condição financeira. Estrutura de capital sólida e margens saudáveis.",
     "A empresa apresenta perfil atrativo para investidores institucionais e estratégicos.")
  else if s ≥ 60 then
    ("Boa condição financeira, com pontos de atenção em margens ou alavancagem.",
     "Pode ser considerada para investimento, desde que haja monitoramento de eficiência operacional.")
  else if s ≥ 40 then
    ("Situação moderada, com fragilidades em rentabilidade ou endividamento.",
     "Investimento requer análise aprofundada e possível reestruturação de capital.")
  else
    ("Condição financeira fraca. Elevado risco operacional e financeiro.",
     "Não recomendada para investimento no estágio atual.")

/-- One emitted comparison bullet (`src/app.py` lines 152–155).  The exact
decimal rendering of the deviation (`:.1f`) is a float-formatting concern;
the bullet keeps the exact deviation together with its direction and the
KPI name, which determines the rendered text. -/
inductive InsightLine where
  | above (kpi : String) (dev : ℚ)
  | below (kpi : String) (dev : ℚ)
deriving DecidableEq

/-- The bullets contributed by one dataframe row (`src/app.py` lines 151–155):
nothing when the deviation is null, an `above` bullet when it exceeds `10`,
a `below` bullet when it is less than `-10`. -/
def entryFor (name : String) (dev : Option ℚ) : List InsightLine :=
  match dev with
  | none => []
  | some d => if 10 < d then [.above name d] else if d < -10 then [.below name d] else []

/-- Row iteration order of the dataframe: KPI-dictionary insertion order. -/
def kpiOrder : List Kpi :=
  [.margemBruta, .margemEbitda, .margemLiquida, .roe, .roa, .dividaPL, .liquidezCorrente]

/-- The `comparisons` list (`src/app.py` lines 149–155). -/
def comparisons (m : KpiMap) : List InsightLine :=
  kpiOrder.flatMap (fun k => entryFor (kpiName k) (deviation m k))

/-- The fallback insight text (`src/app.py` line 157). -/
def fallbackMsg : String := "Os indicadores estão próximos das médias de mercado."

/-- The `insights` payload (`src/app.py` line 157): the bullet list when any
comparison fired, otherwise the fallback sentence. -/
def insights (m : KpiMap) : List InsightLine ⊕ String :=
  if comparisons m = [] then Sum.inr fallbackMsg else Sum.inl (comparisons m)

/-- Everything the core computes from one submission, bundled. -/
structure Analysis where
  kpiMap : KpiMap
  deviations : Kpi → Option ℚ
  healthScore : ℚ
  diag : String × String
  insightOut : List InsightLine ⊕ String

/-- The full pipeline for one submission (`src/app.py` lines 50–157). -/
def analysis (r : RawFinancials) : Analysis :=
  ⟨kpis r, fun k => deviation (kpis r) k, score (kpis r),
   diagnosis (score (kpis r)), insights (kpis r)⟩

/-- The normalization function as the spec's §4.3 words state it, with two
arguments: `0` if `v` is undefined, `0` if `ideal = 0`, else `min(v/ideal, 1.0)`.
Used to compare the spec's score formula against the source's `score`. -/
def specNormalize (v : Option ℚ) (ideal : ℚ) : ℚ :=
  match v with
  | none => 0
  | some x => if ideal = 0 then 0 else min (x / ideal) 1

/-- All ten raw form fields are non-negative, the constraint enforced by the
form widgets (`min_value=0.0`). -/
def RawFinancials.Nonneg (r : RawFinancials) : Prop :=
  0 ≤ r.receita ∧ 0 ≤ r.lucroBruto ∧ 0 ≤ r.ebitda ∧ 0 ≤ r.lucroLiquido ∧
  0 ≤ r.ativoTotal ∧ 0 ≤ r.passivoTotal ∧ 0 ≤ r.patrimonioLiquido ∧
  0 ≤ r.dividaLiquida ∧ 0 ≤ r.ativoCirc ∧ 0 ≤ r.passivoCirc

/-- Replace the `Margem EBITDA` entry, keeping every other entry. -/
def KpiMap.setMargemEbitda (m : KpiMap) (v : Option ℚ) : KpiMap :=
  ⟨m.margemBruta, v, m.margemLiquida, m.roe, m.roa, m.dividaPL, m.liquidezCorrente⟩

/-- Replace the `Margem Líquida` entry, keeping every other entry. -/
def KpiMap.setMargemLiquida (m : KpiMap) (v : Option ℚ) : KpiMap :=
  ⟨m.margemBruta, m.margemEbitda, v, m.roe, m.roa, m.dividaPL, m.liquidezCorrente⟩

/-- Replace the `ROE` entry, keeping every other entry. -/
def KpiMap.setRoe (m : KpiMap) (v : Option ℚ) : KpiMap :=
  ⟨m.margemBruta, m.margemEbitda, m.margemLiquida, v, m.roa, m.dividaPL, m.liquidezCorrente⟩

/-- Replace the `Dívida/PL` entry, keeping every other entry. -/
def KpiMap.setDividaPL (m : KpiMap) (v : Option ℚ) : KpiMap :=
  ⟨m.margemBruta, m.margemEbitda, m.margemLiquida, m.roe, m.roa, v, m.liquidezCorrente⟩

/-- Replace the `Liquidez Corrente` entry, keeping every other entry. -/
def KpiMap.setLiquidezCorrente (m : KpiMap) (v : Option ℚ) : KpiMap :=
  ⟨m.margemBruta, m.margemEbitda, m.margemLiquida, m.roe, m.roa, m.dividaPL, v⟩

/-- Replace the `Passivo Total` form field, keeping every other field. -/
def setPassivoTotal (r : RawFinancials) (x : ℚ) : RawFinancials :=
  ⟨r.receita, r.lucroBruto, r.ebitda, r.lucroLiquido, r.ativoTotal, x,
   r.patrimonioLiquido, r.dividaLiquida, r.ativoCirc, r.passivoCirc⟩

/-- KPI mapping in which every KPI is undefined. -/
def mAllNone : KpiMap := ⟨none, none, none, none, none, none, none⟩

/-- KPI mapping in which only `Dívida/PL` is defined, with value `1`. -/
def mDPLOne : KpiMap := ⟨none, none, none, none, none, some 1, none⟩

/-- KPI mapping in which only `ROE` is defined, with value `3/10`
(deviation `+100%` against the `0.15` benchmark). -/
def mRoeHigh : KpiMap := ⟨none, none, none, some (3/10), none, none, none⟩

/-- The worked example of spec §8: revenue 1000, gross profit 450, EBITDA 250,
net income 120, total assets 2000, equity 800, net debt 700, current assets
500, current liabilities 300 (total liabilities not given there; taken 1200). -/
def rExample : RawFinancials := ⟨1000, 450, 250, 120, 2000, 1200, 800, 700, 500, 300⟩

/-- The all-zero submission of spec §8's second example. -/
def allZero : RawFinancials := ⟨0, 0, 0, 0, 0, 0, 0, 0, 0, 0⟩

/-! ## Helper lemmas -/

theorem normalize_none_eq (ideal maxVal : ℚ) : normalize none ideal maxVal = 0 := rfl

theorem normalize_some_eq {ideal : ℚ} (x maxVal : ℚ) (h : ideal ≠ 0) :
    normalize (some x) ideal maxVal = min (x / ideal) 1 := by
  simp [normalize, h]

theorem specNormalize_eq_normalize (v : Option ℚ) (ideal maxVal : ℚ) :
    specNormalize v ideal = normalize v ideal maxVal := by
  cases v with
  | none => rfl
  | some x =>
    by_cases h : ideal = 0 <;> simp [specNormalize, normalize, h]

theorem pos_iff_ne_zero {a : ℚ} (h : 0 ≤ a) : a ≠ 0 ↔ 0 < a :=
  ⟨fun hne => lt_of_le_of_ne h (Ne.symm hne), fun hp => hp.ne'⟩

theorem ite_some_div_nonneg {c : Prop} [Decidable c] {a b : ℚ} (ha : 0 ≤ a) (hb : 0 ≤ b) :
    ∀ x, (if c then some (a / b) else none) = some x → 0 ≤ x := by
  intro x hx
  by_cases hc : c
  · rw [if_pos hc] at hx
    obtain rfl : a / b = x := Option.some.inj hx
    exact div_nonneg ha hb
  · rw [if_neg hc] at hx
    simp at hx

theorem normalize_bounds (v : Option ℚ) (ideal maxVal : ℚ) (hi : 0 < ideal)
    (hv : ∀ x, v = some x → 0 ≤ x) :
    0 ≤ normalize v ideal maxVal ∧ normalize v ideal maxVal ≤ 1 := by
  cases v with
  | none => simp [normalize]
  | some x =>
    rw [normalize_some_eq x maxVal hi.ne']
    exact ⟨le_min (div_nonneg (hv x rfl) hi.le) zero_le_one, min_le_right _ _⟩

theorem ite_guard {c : Prop} [Decidable c] {y : ℚ} :
    ((if c then some y else none) ≠ none ↔ c) ∧
      (c → (if c then some y else none) = some y) := by
  by_cases hc : c <;> simp [hc]

/-! ## Claims -/

/-- Claim C10: the result of `normalize(v, ideal, max_val)` does not depend on
its third argument `max_val`; the parameter is never used in the body. -/
theorem normalize_ignores_maxVal (v : Option ℚ) (ideal m1 m2 : ℚ) :
    normalize v ideal m1 = normalize v ideal m2 := rfl

/-- Claim C1: for every KPI mapping produced from non-negative raw inputs, the
health score of `src/app.py` equals 100 times the spec's weighted sum of
two-argument `normalize` terms, with the DebtToEquity term inverted. -/
theorem score_matches_spec_formula (r : RawFinancials) (h : r.Nonneg) :
    score (kpis r) =
      100 * (0.25 * specNormalize (kpis r).margemEbitda 0.2 +
        0.2 * specNormalize (kpis r).margemLiquida 0.1 +
        0.25 * specNormalize (kpis r).roe 0.15 +
        0.2 * (1 - specNormalize (kpis r).dividaPL 1) +
        0.1 * specNormalize (kpis r).liquidezCorrente 1.5) := by
  rw [specNormalize_eq_normalize (kpis r).margemEbitda 0.2 0.4,
    specNormalize_eq_normalize (kpis r).margemLiquida 0.1 0.2,
    specNormalize_eq_normalize (kpis r).roe 0.15 0.3,
    specNormalize_eq_normalize (kpis r).dividaPL 1 3,
    specNormalize_eq_normalize (kpis r).liquidezCorrente 1.5 3,
    score]
  ring

theorem score_matches_spec_formula_witness :
    rExample.Nonneg ∧
      score (kpis rExample) =
        100 * (0.25 * specNormalize (kpis rExample).margemEbitda 0.2 +
          0.2 * specNormalize (kpis rExample).margemLiquida 0.1 +
          0.25 * specNormalize (kpis rExample).roe 0.15 +
          0.2 * (1 - specNormalize (kpis rExample).dividaPL 1) +
          0.1 * specNormalize (kpis rExample).liquidezCorrente 1.5) :=
  ⟨by norm_num [RawFinancials.Nonneg, rExample],
   score_matches_spec_formula rExample (by norm_num [RawFinancials.Nonneg, rExample])⟩

/-- Claim C5: the diagnosis classifier maps a score to exactly one of four
bands, first match wins descending: `score ≥ 80` Excellent, `60 ≤ score < 80`
Good, `40 ≤ score < 60` Moderate, `score < 40` Weak. -/
theorem diagnosis_band_thresholds (s : ℚ) :
    (80 ≤ s → diagnosis s =
      ("Excelente condição financeira. Estrutura de capital sólida e margens saudáveis.",
       "A empresa apresenta perfil atrativo para investidores institucionais e estratégicos.")) ∧
    (60 ≤ s → s < 80 → diagnosis s =
      ("Boa condição financeira, com pontos de atenção em margens ou alavancagem.",
       "Pode ser considerada para investimento, desde que haja monitoramento de eficiência operacional.")) ∧
    (40 ≤ s → s < 60 → diagnosis s =
      ("Situação moderada, com fragilidades em rentabilidade ou endividamento.",
       "Investimento requer análise aprofundada e possível reestruturação de capital.")) ∧
    (s < 40 → diagnosis s =
      ("Condição financeira fraca. Elevado risco operacional e financeiro.",
       "Não recomendada para investimento no estágio atual.")) := by
  refine ⟨fun h1 => ?_, fun h1 h2 => ?_, fun h1 h2 => ?_, fun h1 => ?_⟩
  · simp [diagnosis, show s ≥ 80 from h1]
  · simp [diagnosis, show ¬ s ≥ 80 by linarith, show s ≥ 60 from h1]
  · simp [diagnosis, show ¬ s ≥ 80 by linarith, show ¬ s ≥ 60 by linarith,
      show s ≥ 40 from h1]
  · simp [diagnosis, show ¬ s ≥ 80 by linarith, show ¬ s ≥ 60 by linarith,
      show ¬ s ≥ 40 by linarith]

theorem diagnosis_band_thresholds_witness :
    diagnosis 80 =
      ("Excelente condição financeira. Estrutura de capital sólida e margens saudáveis.",
       "A empresa apresenta perfil atrativo para investidores institucionais e estratégicos.") ∧
    diagnosis 60 =
      ("Boa condição financeira, com pontos de atenção em margens ou alavancagem.",
       "Pode ser considerada para investimento, desde que haja monitoramento de eficiência operacional.") ∧
    diagnosis 40 =
      ("Situação moderada, com fragilidades em rentabilidade ou endividamento.",
       "Investimento requer análise aprofundada e possível reestruturação de capital.") ∧
    diagnosis 20 =
      ("Condição financeira fraca. Elevado risco operacional e financeiro.",
       "Não recomendada para investimento no estágio atual.") :=
  ⟨(diagnosis_band_thresholds 80).1 (by norm_num),
   (diagnosis_band_thresholds 60).2.1 (by norm_num) (by norm_num),
   (diagnosis_band_thresholds 40).2.2.1 (by norm_num) (by norm_num),
   (diagnosis_band_thresholds 20).2.2.2 (by norm_num)⟩

/-- Claim C3: with every raw input zero, all 7 KPIs are undefined, the health
score is 20, the diagnosis is the Weak band (score below 40), and the insight
output is the single fallback message. -/
theorem all_zero_inputs_behavior :
    kpis allZero = mAllNone ∧
    score (kpis allZero) = 20 ∧
    score (kpis allZero) < 40 ∧
    diagnosis (score (kpis allZero)) =
      ("Condição financeira fraca. Elevado risco operacional e financeiro.",
       "Não recomendada para investimento no estágio atual.") ∧
    comparisons (kpis allZero) = [] ∧
    insights (kpis allZero) = Sum.inr fallbackMsg := by
  have hk : kpis allZero = mAllNone := by
    norm_num [kpis, allZero, mAllNone]
  have hs : score (kpis allZero) = 20 := by
    rw [hk]; norm_num [score, normalize, mAllNone]
  refine ⟨hk, hs, ?_, ?_, ?_, ?_⟩
  · rw [hs]; norm_num
  · rw [hs]; norm_num [diagnosis]
  · rw [hk]
    norm_num [comparisons, kpiOrder, entryFor, deviation, KpiMap.get, mAllNone]
  · rw [hk]
    norm_num [insights, comparisons, kpiOrder, entryFor, deviation, KpiMap.get, mAllNone]

/-- Claim C4: for every raw input with all ten fields non-negative, the
computed health score lies in the closed interval `[0, 100]`. -/
theorem score_within_bounds (r : RawFinancials) (h : r.Nonneg) :
    0 ≤ score (kpis r) ∧ score (kpis r) ≤ 100 := by
  obtain ⟨h1, h2, h3, h4, h5, h6, h7, h8, h9, h10⟩ := h
  have hvE : ∀ x, (kpis r).margemEbitda = some x → 0 ≤ x := by
    simp only [kpis]; exact ite_some_div_nonneg h3 h1
  have hvL : ∀ x, (kpis r).margemLiquida = some x → 0 ≤ x := by
    simp only [kpis]; exact ite_some_div_nonneg h4 h1
  have hvR : ∀ x, (kpis r).roe = some x → 0 ≤ x := by
    simp only [kpis]; exact ite_some_div_nonneg h4 h7
  have hvD : ∀ x, (kpis r).dividaPL = some x → 0 ≤ x := by
    simp only [kpis]; exact ite_some_div_nonneg h8 h7
  have hvC : ∀ x, (kpis r).liquidezCorrente = some x → 0 ≤ x := by
    simp only [kpis]; exact ite_some_div_nonneg h9 h10
  obtain ⟨lE, uE⟩ := normalize_bounds (kpis r).margemEbitda 0.2 0.4 (by norm_num) hvE
  obtain ⟨lL, uL⟩ := normalize_bounds (kpis r).margemLiquida 0.1 0.2 (by norm_num) hvL
  obtain ⟨lR, uR⟩ := normalize_bounds (kpis r).roe 0.15 0.3 (by norm_num) hvR
  obtain ⟨lD, uD⟩ := normalize_bounds (kpis r).dividaPL 1 3 (by norm_num) hvD
  obtain ⟨lC, uC⟩ := normalize_bounds (kpis r).liquidezCorrente 1.5 3 (by norm_num) hvC
  unfold score
  constructor <;> linarith

theorem score_within_bounds_witness :
    rExample.Nonneg ∧ 0 ≤ score (kpis rExample) ∧ score (kpis rExample) ≤ 100 := by
  have hn : rExample.Nonneg := by norm_num [RawFinancials.Nonneg, rExample]
  exact ⟨hn, score_within_bounds rExample hn⟩

/-- Claim C7: for non-negative inputs, the three margins are defined (with
their exact ratio values) exactly when `receita > 0`; ROE and `Dívida/PL`
exactly when `patrimonio_liquido > 0`; ROA exactly when `ativo_total > 0`;
and `Liquidez Corrente` exactly when both `ativo_circ > 0` and
`passivo_circ > 0`. -/
theorem kpi_definedness_guards (r : RawFinancials) (h : r.Nonneg) :
    ((kpis r).margemBruta ≠ none ↔ 0 < r.receita) ∧
    (0 < r.receita → (kpis r).margemBruta = some (r.lucroBruto / r.receita)) ∧
    ((kpis r).margemEbitda ≠ none ↔ 0 < r.receita) ∧
    (0 < r.receita → (kpis r).margemEbitda = some (r.ebitda / r.receita)) ∧
    ((kpis r).margemLiquida ≠ none ↔ 0 < r.receita) ∧
    (0 < r.receita → (kpis r).margemLiquida = some (r.lucroLiquido / r.receita)) ∧
    ((kpis r).roe ≠ none ↔ 0 < r.patrimonioLiquido) ∧
    (0 < r.patrimonioLiquido → (kpis r).roe = some (r.lucroLiquido / r.patrimonioLiquido)) ∧
    ((kpis r).dividaPL ≠ none ↔ 0 < r.patrimonioLiquido) ∧
    (0 < r.patrimonioLiquido → (kpis r).dividaPL = some (r.dividaLiquida / r.patrimonioLiquido)) ∧
    ((kpis r).roa ≠ none ↔ 0 < r.ativoTotal) ∧
    (0 < r.ativoTotal → (kpis r).roa = some (r.lucroLiquido / r.ativoTotal)) ∧
    ((kpis r).liquidezCorrente ≠ none ↔ 0 < r.ativoCirc ∧ 0 < r.passivoCirc) ∧
    ((0 < r.ativoCirc ∧ 0 < r.passivoCirc) →
      (kpis r).liquidezCorrente = some (r.ativoCirc / r.passivoCirc)) := by
  obtain ⟨h1, h2, h3, h4, h5, h6, h7, h8, h9, h10⟩ := h
  simp only [kpis]
  refine ⟨?_, ?_, ?_, ?_, ?_, ?_, ?_, ?_, ?_, ?_, ?_, ?_, ?_, ?_⟩
  · exact Iff.trans ite_guard.1 (pos_iff_ne_zero h1)
  · exact fun hp => ite_guard.2 ((pos_iff_ne_zero h1).mpr hp)
  · exact Iff.trans ite_guard.1 (pos_iff_ne_zero h1)
  · exact fun hp => ite_guard.2 ((pos_iff_ne_zero h1).mpr hp)
  · exact Iff.trans ite_guard.1 (pos_iff_ne_zero h1)
  · exact fun hp => ite_guard.2 ((pos_iff_ne_zero h1).mpr hp)
  · exact Iff.trans ite_guard.1 (pos_iff_ne_zero h7)
  · exact fun hp => ite_guard.2 ((pos_iff_ne_zero h7).mpr hp)
  · exact Iff.trans ite_guard.1 (pos_iff_ne_zero h7)
  · exact fun hp => ite_guard.2 ((pos_iff_ne_zero h7).mpr hp)
  · exact Iff.trans ite_guard.1 (pos_iff_ne_zero h5)
  · exact fun hp => ite_guard.2 ((pos_iff_ne_zero h5).mpr hp)
  · exact Iff.trans ite_guard.1 (and_congr (pos_iff_ne_zero h9) (pos_iff_ne_zero h10))
  · exact fun hp => ite_guard.2 ⟨(pos_iff_ne_zero h9).mpr hp.1, (pos_iff_ne_zero h10).mpr hp.2⟩

theorem kpi_definedness_guards_witness :
    rExample.Nonneg ∧ 0 < rExample.receita ∧
      (kpis rExample).margemBruta = some (rExample.lucroBruto / rExample.receita) := by
  have hn : rExample.Nonneg := by norm_num [RawFinancials.Nonneg, rExample]
  exact ⟨hn, by norm_num [rExample],
    (kpi_definedness_guards rExample hn).2.1 (by norm_num [rExample])⟩

theorem mem_entryFor_some {l : InsightLine} {n : String} {d : ℚ} :
    l ∈ entryFor n (some d) ↔
      (10 < d ∧ l = .above n d) ∨ (d < -10 ∧ l = .below n d) := by
  by_cases h1 : 10 < d
  · have h2 : ¬ d < -10 := by linarith
    simp [entryFor, h1, h2]
  · by_cases h2 : d < -10
    · simp [entryFor, h1, h2]
    · simp [entryFor, h1, h2]

theorem mem_comparisons {m : KpiMap} {l : InsightLine} :
    l ∈ comparisons m ↔ ∃ k, l ∈ entryFor (kpiName k) (deviation m k) := by
  simp only [comparisons, List.mem_flatMap]
  constructor
  · rintro ⟨k, _, hk⟩
    exact ⟨k, hk⟩
  · rintro ⟨k, hk⟩
    refine ⟨k, ?_, hk⟩
    cases k <;> simp [kpiOrder]

/-- Claim C6: a bullet is emitted for a KPI exactly when its deviation is
defined and strictly beyond `±10`; a deviation of exactly `+10` or `-10`
emits nothing; an empty comparison list yields the single fallback message. -/
theorem insight_bullet_thresholds (m : KpiMap) (k : Kpi) (d : ℚ)
    (h : deviation m k = some d) :
    (InsightLine.above (kpiName k) d ∈ comparisons m ↔ 10 < d) ∧
    (InsightLine.below (kpiName k) d ∈ comparisons m ↔ d < -10) ∧
    ((d = 10 ∨ d = -10) → entryFor (kpiName k) (deviation m k) = []) ∧
    (comparisons m = [] → insights m = Sum.inr fallbackMsg) := by
  refine ⟨⟨fun hmem => ?_, fun hd => ?_⟩, ⟨fun hmem => ?_, fun hd => ?_⟩,
    fun hd => ?_, fun hc => ?_⟩
  · obtain ⟨k', hk'⟩ := mem_comparisons.mp hmem
    cases hdev : deviation m k' with
    | none => rw [hdev] at hk'; simp [entryFor] at hk'
    | some d' =>
      rw [hdev] at hk'
      rcases mem_entryFor_some.mp hk' with ⟨h10, heq⟩ | ⟨h10, heq⟩
      · injection heq with hn hd'
        subst hd'
        exact h10
      · exact InsightLine.noConfusion heq
  · exact mem_comparisons.mpr ⟨k, by rw [h]; exact mem_entryFor_some.mpr (Or.inl ⟨hd, rfl⟩)⟩
  · obtain ⟨k', hk'⟩ := mem_comparisons.mp hmem
    cases hdev : deviation m k' with
    | none => rw [hdev] at hk'; simp [entryFor] at hk'
    | some d' =>
      rw [hdev] at hk'
      rcases mem_entryFor_some.mp hk' with ⟨h10, heq⟩ | ⟨h10, heq⟩
      · exact InsightLine.noConfusion heq
      · injection heq with hn hd'
        subst hd'
        exact h10
  · exact mem_comparisons.mpr ⟨k, by rw [h]; exact mem_entryFor_some.mpr (Or.inr ⟨hd, rfl⟩)⟩
  · rw [h]
    rcases hd with rfl | rfl <;> norm_num [entryFor]
  · simp [insights, hc]

theorem insight_bullet_thresholds_witness :
    deviation mRoeHigh Kpi.roe = some 100 ∧
    InsightLine.above (kpiName Kpi.roe) 100 ∈ comparisons mRoeHigh ∧
    InsightLine.below (kpiName Kpi.roe) 100 ∉ comparisons mRoeHigh := by
  have hd : deviation mRoeHigh Kpi.roe = some 100 := by
    norm_num [deviation, benchmark, KpiMap.get, mRoeHigh]
  have ht := insight_bullet_thresholds mRoeHigh Kpi.roe 100 hd
  refine ⟨hd, ht.1.mpr (by norm_num), fun hc => ?_⟩
  have := ht.2.1.mp hc
  norm_num at this

theorem min_div_le_min_div {c a b : ℚ} (hc : 0 < c) (h : a ≤ b) :
    min (a / c) 1 ≤ min (b / c) 1 :=
  min_le_min ((div_le_div_iff_of_pos_right hc).mpr h) le_rfl

theorem min_div_strict_mono {c a b : ℚ} (hc : 0 < c) (h : a < b) (hb : b ≤ c) :
    min (a / c) 1 < min (b / c) 1 := by
  have hab : a / c < b / c := (div_lt_div_iff_of_pos_right hc).mpr h
  have hb1 : b / c ≤ 1 := (div_le_one hc).mpr hb
  rw [min_eq_left (hab.le.trans hb1), min_eq_left hb1]
  exact hab

theorem min_div_at_cap {c a : ℚ} (hc : 0 < c) (ha : c ≤ a) : min (a / c) 1 = 1 :=
  min_eq_right ((one_le_div hc).mpr ha)

/-- Claim C8: with all other KPI entries held fixed, the score is
non-decreasing in each of `Margem EBITDA`, `Margem Líquida`, `ROE`,
`Liquidez Corrente` (strictly increasing below the KPI's ideal cap, flat at
and above it) and non-increasing in `Dívida/PL` (strictly decreasing below
its cap `1`, flat at and above it). -/
theorem score_monotonicity (m : KpiMap) (v1 v2 : ℚ) (h : v1 ≤ v2) :
    (score (m.setMargemEbitda (some v1)) ≤ score (m.setMargemEbitda (some v2)) ∧
      (v1 < v2 → v2 ≤ 0.2 →
        score (m.setMargemEbitda (some v1)) < score (m.setMargemEbitda (some v2))) ∧
      (0.2 ≤ v1 →
        score (m.setMargemEbitda (some v1)) = score (m.setMargemEbitda (some v2)))) ∧
    (score (m.setMargemLiquida (some v1)) ≤ score (m.setMargemLiquida (some v2)) ∧
      (v1 < v2 → v2 ≤ 0.1 →
        score (m.setMargemLiquida (some v1)) < score (m.setMargemLiquida (some v2))) ∧
      (0.1 ≤ v1 →
        score (m.setMargemLiquida (some v1)) = score (m.setMargemLiquida (some v2)))) ∧
    (score (m.setRoe (some v1)) ≤ score (m.setRoe (some v2)) ∧
      (v1 < v2 → v2 ≤ 0.15 →
        score (m.setRoe (some v1)) < score (m.setRoe (some v2))) ∧
      (0.15 ≤ v1 →
        score (m.setRoe (some v1)) = score (m.setRoe (some v2)))) ∧
    (score (m.setLiquidezCorrente (some v1)) ≤ score (m.setLiquidezCorrente (some v2)) ∧
      (v1 < v2 → v2 ≤ 1.5 →
        score (m.setLiquidezCorrente (some v1)) < score (m.setLiquidezCorrente (some v2))) ∧
      (1.5 ≤ v1 →
        score (m.setLiquidezCorrente (some v1)) = score (m.setLiquidezCorrente (some v2)))) ∧
    (score (m.setDividaPL (some v2)) ≤ score (m.setDividaPL (some v1)) ∧
      (v1 < v2 → v2 ≤ 1 →
        score (m.setDividaPL (some v2)) < score (m.setDividaPL (some v1))) ∧
      (1 ≤ v1 →
        score (m.setDividaPL (some v1)) = score (m.setDividaPL (some v2)))) := by
  have hsE : ∀ w : ℚ, score (m.setMargemEbitda (some w)) =
      (0.25 * min (w / 0.2) 1 +
       0.2 * normalize m.margemLiquida 0.1 0.2 +
       0.25 * normalize m.roe 0.15 0.3 +
       0.2 * (1 - normalize m.dividaPL 1 3) +
       0.1 * normalize m.liquidezCorrente 1.5 3) * 100 := by
    intro w
    simp only [score, KpiMap.setMargemEbitda]
    rw [normalize_some_eq w 0.4 (by norm_num)]
  have hsL : ∀ w : ℚ, score (m.setMargemLiquida (some w)) =
      (0.25 * normalize m.margemEbitda 0.2 0.4 +
       0.2 * min (w / 0.1) 1 +
       0.25 * normalize m.roe 0.15 0.3 +
       0.2 * (1 - normalize m.dividaPL 1 3) +
       0.1 * normalize m.liquidezCorrente 1.5 3) * 100 := by
    intro w
    simp only [score, KpiMap.setMargemLiquida]
    rw [normalize_some_eq w 0.2 (by norm_num)]
  have hsR : ∀ w : ℚ, score (m.setRoe (some w)) =
      (0.25 * normalize m.margemEbitda 0.2 0.4 +
       0.2 * normalize m.margemLiquida 0.1 0.2 +
       0.25 * min (w / 0.15) 1 +
       0.2 * (1 - normalize m.dividaPL 1 3) +
       0.1 * normalize m.liquidezCorrente 1.5 3) * 100 := by
    intro w
    simp only [score, KpiMap.setRoe]
    rw [normalize_some_eq w 0.3 (by norm_num)]
  have hsC : ∀ w : ℚ, score (m.setLiquidezCorrente (some w)) =
      (0.25 * normalize m.margemEbitda 0.2 0.4 +
       0.2 * normalize m.margemLiquida 0.1 0.2 +
       0.25 * normalize m.roe 0.15 0.3 +
       0.2 * (1 - normalize m.dividaPL 1 3) +
       0.1 * min (w / 1.5) 1) * 100 := by
    intro w
    simp only [score, KpiMap.setLiquidezCorrente]
    rw [normalize_some_eq w 3 (by norm_num)]
  have hsD : ∀ w : ℚ, score (m.setDividaPL (some w)) =
      (0.25 * normalize m.margemEbitda 0.2 0.4 +
       0.2 * normalize m.margemLiquida 0.1 0.2 +
       0.25 * normalize m.roe 0.15 0.3 +
       0.2 * (1 - min (w / 1) 1) +
       0.1 * normalize m.liquidezCorrente 1.5 3) * 100 := by
    intro w
    simp only [score, KpiMap.setDividaPL]
    rw [normalize_some_eq w 3 (by norm_num)]
  refine ⟨⟨?_, ?_, ?_⟩, ⟨?_, ?_, ?_⟩, ⟨?_, ?_, ?_⟩, ⟨?_, ?_, ?_⟩, ⟨?_, ?_, ?_⟩⟩
  · rw [hsE v1, hsE v2]
    have := min_div_le_min_div (show (0:ℚ) < 0.2 by norm_num) h
    linarith
  · intro hlt hcap
    rw [hsE v1, hsE v2]
    have := min_div_strict_mono (show (0:ℚ) < 0.2 by norm_num) hlt hcap
    linarith
  · intro hcap
    rw [hsE v1, hsE v2, min_div_at_cap (show (0:ℚ) < 0.2 by norm_num) hcap,
      min_div_at_cap (show (0:ℚ) < 0.2 by norm_num) (hcap.trans h)]
  · rw [hsL v1, hsL v2]
    have := min_div_le_min_div (show (0:ℚ) < 0.1 by norm_num) h
    linarith
  · intro hlt hcap
    rw [hsL v1, hsL v2]
    have := min_div_strict_mono (show (0:ℚ) < 0.1 by norm_num) hlt hcap
    linarith
  · intro hcap
    rw [hsL v1, hsL v2, min_div_at_cap (show (0:ℚ) < 0.1 by norm_num) hcap,
      min_div_at_cap (show (0:ℚ) < 0.1 by norm_num) (hcap.trans h)]
  · rw [hsR v1, hsR v2]
    have := min_div_le_min_div (show (0:ℚ) < 0.15 by norm_num) h
    linarith
  · intro hlt hcap
    rw [hsR v1, hsR v2]
    have := min_div_strict_mono (show (0:ℚ) < 0.15 by norm_num) hlt hcap
    linarith
  · intro hcap
    rw [hsR v1, hsR v2, min_div_at_cap (show (0:ℚ) < 0.15 by norm_num) hcap,
      min_div_at_cap (show (0:ℚ) < 0.15 by norm_num) (hcap.trans h)]
  · rw [hsC v1, hsC v2]
    have := min_div_le_min_div (show (0:ℚ) < 1.5 by norm_num) h
    linarith
  · intro hlt hcap
    rw [hsC v1, hsC v2]
    have := min_div_strict_mono (show (0:ℚ) < 1.5 by norm_num) hlt hcap
    linarith
  · intro hcap
    rw [hsC v1, hsC v2, min_div_at_cap (show (0:ℚ) < 1.5 by norm_num) hcap,
      min_div_at_cap (show (0:ℚ) < 1.5 by norm_num) (hcap.trans h)]
  · rw [hsD v1, hsD v2]
    have := min_div_le_min_div (show (0:ℚ) < 1 by norm_num) h
    linarith
  · intro hlt hcap
    rw [hsD v1, hsD v2]
    have := min_div_strict_mono (show (0:ℚ) < 1 by norm_num) hlt hcap
    linarith
  · intro hcap
    rw [hsD v1, hsD v2, min_div_at_cap (show (0:ℚ) < 1 by norm_num) hcap,
      min_div_at_cap (show (0:ℚ) < 1 by norm_num) (hcap.trans h)]

theorem score_monotonicity_witness :
    (0 : ℚ) ≤ 1/10 ∧
    score (mAllNone.setMargemEbitda (some 0)) < score (mAllNone.setMargemEbitda (some (1/10))) ∧
    score (mAllNone.setDividaPL (some (1/10))) < score (mAllNone.setDividaPL (some 0)) := by
  have ht := score_monotonicity mAllNone 0 (1/10) (by norm_num)
  exact ⟨by norm_num, ht.1.2.1 (by norm_num) (by norm_num),
    ht.2.2.2.2.2.1 (by norm_num) (by norm_num)⟩

/-- Claim C2 counterexample: in the mapping `mDPLOne`, where only `Dívida/PL`
is defined (value `1`), the score is `0` and the `Dívida/PL` weighted term
`0.2·(1 − normalize(1, 1.0))·100` is `0`; the claim says replacing that
defined value by `undefined` removes exactly this term, leaving the score at
`0`, yet the score with `Dívida/PL` undefined is `20`. -/
theorem undefined_dpl_refutes_zero_contribution :
    score (mDPLOne.setDividaPL none) ≠
      score mDPLOne - 0.2 * (1 - normalize mDPLOne.dividaPL 1 3) * 100 ∧
    score mDPLOne = 0 ∧
    score (mDPLOne.setDividaPL none) = 20 := by
  norm_num [score, normalize, mDPLOne, KpiMap.setDividaPL]

/-- Claim C2 amended: an undefined `Margem EBITDA`, `Margem Líquida`, `ROE`
or `Liquidez Corrente` contributes 0: undefining it removes exactly its
weighted score term.  `Dívida/PL` behaves differently because its normalized
value enters inverted: undefining it sets the normalized value to 0 and the
inverted term then contributes its full weight (the same as a defined value
of 0), so replacing a defined value `v` by undefined adds
`0.2·min(v, 1)·100` to the score. -/
theorem undefined_kpi_contribution (m : KpiMap) (v : ℚ) :
    (score (m.setMargemEbitda (some v)) - score (m.setMargemEbitda none) =
      0.25 * min (v / 0.2) 1 * 100) ∧
    (score (m.setMargemLiquida (some v)) - score (m.setMargemLiquida none) =
      0.2 * min (v / 0.1) 1 * 100) ∧
    (score (m.setRoe (some v)) - score (m.setRoe none) =
      0.25 * min (v / 0.15) 1 * 100) ∧
    (score (m.setLiquidezCorrente (some v)) - score (m.setLiquidezCorrente none) =
      0.1 * min (v / 1.5) 1 * 100) ∧
    (score (m.setDividaPL none) - score (m.setDividaPL (some v)) =
      0.2 * min (v / 1) 1 * 100) ∧
    score (m.setDividaPL none) = score (m.setDividaPL (some 0)) := by
  refine ⟨?_, ?_, ?_, ?_, ?_, ?_⟩
  · simp only [score, KpiMap.setMargemEbitda, normalize_none_eq]
    rw [normalize_some_eq v 0.4 (by norm_num)]
    ring
  · simp only [score, KpiMap.setMargemLiquida, normalize_none_eq]
    rw [normalize_some_eq v 0.2 (by norm_num)]
    ring
  · simp only [score, KpiMap.setRoe, normalize_none_eq]
    rw [normalize_some_eq v 0.3 (by norm_num)]
    ring
  · simp only [score, KpiMap.setLiquidezCorrente, normalize_none_eq]
    rw [normalize_some_eq v 3 (by norm_num)]
    ring
  · simp only [score, KpiMap.setDividaPL, normalize_none_eq]
    rw [normalize_some_eq v 3 (by norm_num)]
    ring
  · simp only [score, KpiMap.setDividaPL, normalize_none_eq]
    rw [normalize_some_eq 0 3 (by norm_num)]
    norm_num

/-- Claim C9: `Passivo Total` (total liabilities) is collected but feeds no
computation: two submissions that differ only in that field produce the same
KPI mapping, deviations, score, diagnosis texts, and insight output. -/
theorem passivoTotal_has_no_effect (r : RawFinancials) (x : ℚ) :
    analysis (setPassivoTotal r x) = analysis r := rfl

end AutoDD
